import Mathlib

/-!
Verification of `objection/commands/ios/heap.py`: a thin CLI layer of five
command handlers (`instances`, `ivars`, `methods`, `execute`, `evaluate`)
plus four flag predicates. The remote agent is mocked: each handler takes
the would-be remote result as an explicit parameter, and its observable
behaviour (usage message, remote call, rendered table rows, warnings,
unhandled index faults, argument-list mutation) is returned as a record.
-/

/-- JSON-like values exchanged with the remote agent (Python scalars,
dicts and lists). Dicts are association lists in insertion order, which
is also Python dict iteration order. -/
inductive Val where
  | vStr : String → Val
  | vInt : Int → Val
  | vBool : Bool → Val
  | vNull : Val
  | vList : List Val → Val
  | vDict : List (String × Val) → Val
deriving Repr

mutual
/-- Boolean structural equality on `Val` (the nested lists prevent the
automatic derivation of decidable equality). -/
def Val.beqFn : Val → Val → Bool
  | .vStr a, .vStr b => a == b
  | .vInt a, .vInt b => a == b
  | .vBool a, .vBool b => a == b
  | .vNull, .vNull => true
  | .vList xs, .vList ys => Val.beqListFn xs ys
  | .vDict xs, .vDict ys => Val.beqDictFn xs ys
  | _, _ => false
/-- Boolean equality on lists of `Val`. -/
def Val.beqListFn : List Val → List Val → Bool
  | [], [] => true
  | x :: xs, y :: ys => Val.beqFn x y && Val.beqListFn xs ys
  | _, _ => false
/-- Boolean equality on association lists over `Val`. -/
def Val.beqDictFn : List (String × Val) → List (String × Val) → Bool
  | [], [] => true
  | (k1, v1) :: xs, (k2, v2) :: ys => k1 == k2 && Val.beqFn v1 v2 && Val.beqDictFn xs ys
  | _, _ => false
end

mutual
/-- `Val.beqFn` decides propositional equality. -/
theorem Val.beqFn_iff : (a b : Val) → (Val.beqFn a b = true ↔ a = b)
  | .vStr x, .vStr y => by simp [Val.beqFn]
  | .vInt x, .vInt y => by simp [Val.beqFn]
  | .vBool x, .vBool y => by simp [Val.beqFn]
  | .vNull, .vNull => by simp [Val.beqFn]
  | .vList xs, .vList ys => by simp [Val.beqFn, Val.beqListFn_iff xs ys]
  | .vDict xs, .vDict ys => by simp [Val.beqFn, Val.beqDictFn_iff xs ys]
  | .vStr x, .vInt y => by simp [Val.beqFn]
  | .vStr x, .vBool y => by simp [Val.beqFn]
  | .vStr x, .vNull => by simp [Val.beqFn]
  | .vStr x, .vList y => by simp [Val.beqFn]
  | .vStr x, .vDict y => by simp [Val.beqFn]
  | .vInt x, .vStr y => by simp [Val.beqFn]
  | .vInt x, .vBool y => by simp [Val.beqFn]
  | .vInt x, .vNull => by simp [Val.beqFn]
  | .vInt x, .vList y => by simp [Val.beqFn]
  | .vInt x, .vDict y => by simp [Val.beqFn]
  | .vBool x, .vStr y => by simp [Val.beqFn]
  | .vBool x, .vInt y => by simp [Val.beqFn]
  | .vBool x, .vNull => by simp [Val.beqFn]
  | .vBool x, .vList y => by simp [Val.beqFn]
  | .vBool x, .vDict y => by simp [Val.beqFn]
  | .vNull, .vStr y => by simp [Val.beqFn]
  | .vNull, .vInt y => by simp [Val.beqFn]
  | .vNull, .vBool y => by simp [Val.beqFn]
  | .vNull, .vList y => by simp [Val.beqFn]
  | .vNull, .vDict y => by simp [Val.beqFn]
  | .vList x, .vStr y => by simp [Val.beqFn]
  | .vList x, .vInt y => by simp [Val.beqFn]
  | .vList x, .vBool y => by simp [Val.beqFn]
  | .vList x, .vNull => by simp [Val.beqFn]
  | .vList x, .vDict y => by simp [Val.beqFn]
  | .vDict x, .vStr y => by simp [Val.beqFn]
  | .vDict x, .vInt y => by simp [Val.beqFn]
  | .vDict x, .vBool y => by simp [Val.beqFn]
  | .vDict x, .vNull => by simp [Val.beqFn]
  | .vDict x, .vList y => by simp [Val.beqFn]
/-- `Val.beqListFn` decides propositional equality. -/
theorem Val.beqListFn_iff : (xs ys : List Val) → (Val.beqListFn xs ys = true ↔ xs = ys)
  | [], [] => by simp [Val.beqListFn]
  | x :: xs, y :: ys => by
      simp [Val.beqListFn, Val.beqFn_iff x y, Val.beqListFn_iff xs ys]
  | [], _ :: _ => by simp [Val.beqListFn]
  | _ :: _, [] => by simp [Val.beqListFn]
/-- `Val.beqDictFn` decides propositional equality. -/
theorem Val.beqDictFn_iff : (xs ys : List (String × Val)) → (Val.beqDictFn xs ys = true ↔ xs = ys)
  | [], [] => by simp [Val.beqDictFn]
  | (k1, v1) :: xs, (k2, v2) :: ys => by
      simp [Val.beqDictFn, Val.beqFn_iff v1 v2, Val.beqDictFn_iff xs ys, and_assoc]
  | [], _ :: _ => by simp [Val.beqDictFn]
  | _ :: _, [] => by simp [Val.beqDictFn]
end

instance : DecidableEq Val := fun a b => decidable_of_iff _ (Val.beqFn_iff a b)

/-- Python `d[k]` / membership on a dict: first binding of the key. -/
def dictLookup (d : List (String × Val)) (k : String) : Option Val :=
  match d with
  | [] => none
  | (k2, v) :: rest => if k2 = k then some v else dictLookup rest k

/-- Python `d.get(k, default)`. -/
def dictGet (d : List (String × Val)) (k : String) (default : Val) : Val :=
  (dictLookup d k).getD default

/-- The single-quote character, written by code point. -/
def squote : Char := Char.ofNat 39

/-- The double-quote character, written by code point. -/
def dquote : Char := Char.ofNat 34

/-- The backslash character, written by code point. -/
def backslash : Char := Char.ofNat 92

/-- Python `c in s` for a one-character needle `c`: some character of
`s` equals `c`. -/
def pyInStr (c : Char) (s : String) : Bool :=
  s.toList.contains c

/-- Python `s.split(sep)` for a one-character separator, on the
character list: splits at every occurrence, keeping empty pieces, and
yields one (empty) piece for the empty input. -/
def pySplitChars (sep : Char) : List Char → List (List Char)
  | [] => [[]]
  | c :: rest =>
    if c = sep then [] :: pySplitChars sep rest
    else
      match pySplitChars sep rest with
      | [] => [[c]]
      | piece :: pieces => (c :: piece) :: pieces

/-- Python `s.split(sep)` for a one-character separator. -/
def pySplit (sep : Char) (s : String) : List String :=
  (pySplitChars sep s.toList).map String.mk

/-- Quote character chosen by Python `repr` for a string: single quotes,
unless the string contains a single quote and no double quote. -/
def pyReprQuote (s : String) : Char :=
  if pyInStr squote s && !(pyInStr dquote s) then dquote else squote

/-- Escape of one character inside a Python string `repr` with quote
character `q`. Backslash, the quote character and the common control
characters are escaped; other (printable) characters stand for
themselves. Non-printable characters, which Python renders as hex
escapes, do not occur in the data handled here. -/
def pyEscapeChar (q : Char) (c : Char) : String :=
  if c = backslash then String.mk [backslash, backslash]
  else if c = q then String.mk [backslash, q]
  else if c = Char.ofNat 10 then String.mk [backslash, Char.ofNat 110]
  else if c = Char.ofNat 13 then String.mk [backslash, Char.ofNat 114]
  else if c = Char.ofNat 9 then String.mk [backslash, Char.ofNat 116]
  else String.singleton c

/-- Python `repr` of a string: quote choice plus character escapes. -/
def pyRepr (s : String) : String :=
  let q := pyReprQuote s
  String.singleton q ++ String.join (s.toList.map (pyEscapeChar q)) ++ String.singleton q

/-- Python `str()` of a value, as used by f-string interpolation in
`ivars`. Scalars print plainly; only scalar cases are needed because the
remote reference descriptors carry string `className`/`pointer` fields,
but containers are given a printed form too for totality. -/
def pyStr : Val → String
  | Val.vStr s => s
  | Val.vInt n => toString n
  | Val.vBool b => if b then "True" else "False"
  | Val.vNull => "None"
  | Val.vList _ => "<list>"
  | Val.vDict _ => "<dict>"

/-- `_should_ignore_methods_with_arguments` from the source:
`len(args) > 0 and '--without-arguments' in args`. -/
def _should_ignore_methods_with_arguments (args : List String) : Bool :=
  decide (0 < args.length) && args.contains "--without-arguments"

/-- `_should_print_as_utf8` from the source:
`len(args) > 0 and '--to-utf8' in args`. -/
def _should_print_as_utf8 (args : List String) : Bool :=
  decide (0 < args.length) && args.contains "--to-utf8"

/-- `_should_return_as_string` from the source:
`len(args) > 0 and '--return-string' in args`. -/
def _should_return_as_string (args : List String) : Bool :=
  decide (0 < args.length) && args.contains "--return-string"

/-- `_should_interpret_inline_js` from the source:
`len(args) > 0 and '--inline' in args`. -/
def _should_interpret_inline_js (args : List String) : Bool :=
  decide (0 < args.length) && args.contains "--inline"

/-- Python runtime faults that the handlers can raise. -/
inductive PyError where
  | indexError
deriving DecidableEq, Repr

/-- `IHeapObject`: one entry of the result of
`api.ios_heap_print_live_instances`, per the interface comment in
`instances`. `ivars` is a mapping, `methods` a list of strings. -/
structure HeapObject where
  className : String
  handle : String
  ivars : List (String × Val)
  kind : String
  methods : List String
  superClass : String
deriving DecidableEq, Repr

/-- Observable behaviour of one `instances` call: whether a usage message
was printed, whether the remote call was made, and the rendered rows
(`none` when no table was printed). -/
structure InstancesRun where
  usagePrinted : Bool
  remoteCalled : Bool
  table : Option (List (List Val))
deriving DecidableEq, Repr

/-- The `instances` handler: with no arguments it prints a usage message
and returns; then calls the remote API; with an empty result list it
returns with no output; otherwise it renders a row
`[handle, kind, className, superClass, len(ivars), len(methods)]`
per entry. The remote result is passed in as `remote` (the mocked return
of `ios_heap_print_live_instances`). -/
def instances (args : List String) (remote : List HeapObject) : InstancesRun :=
  if args.length < 1 then
    { usagePrinted := true, remoteCalled := false, table := none }
  else if remote.length ≤ 0 then
    { usagePrinted := false, remoteCalled := true, table := none }
  else
    { usagePrinted := false, remoteCalled := true,
      table := some (remote.map (fun entry =>
        [Val.vStr entry.handle,
         Val.vStr entry.kind,
         Val.vStr entry.className,
         Val.vStr entry.superClass,
         Val.vInt entry.ivars.length,
         Val.vInt entry.methods.length])) }

/-- `format_class_and_value` from `ivars`: a dict carrying both a
`className` and a `pointer` key becomes the side annotation
`<className:pointer>` with its embedded `value` (default the empty
string) as the raw value; any other value is its own raw value with an
empty annotation. A raw value that is a string is then replaced by its
Python `repr`; anything else passes through unchanged. -/
def format_class_and_value (value : Val) : Val × String :=
  let p : String × Val :=
    match value with
    | Val.vDict d =>
      if (dictLookup d "className").isSome && (dictLookup d "pointer").isSome then
        ("<" ++ pyStr (dictGet d "className" Val.vNull) ++ ":"
             ++ pyStr (dictGet d "pointer" Val.vNull) ++ ">",
         dictGet d "value" (Val.vStr ""))
      else ("", value)
    | _ => ("", value)
  let formatted : Val :=
    match p.2 with
    | Val.vStr s => Val.vStr (pyRepr s)
    | v => v
  (formatted, p.1)

/-- Observable behaviour of one `ivars` call. `utf8Flag` is the second
argument passed to the remote call. -/
structure IvarsRun where
  usagePrinted : Bool
  remoteCalled : Bool
  utf8Flag : Bool
  table : Option (List (List Val))
deriving DecidableEq, Repr

/-- The `ivars` handler: usage message on missing argument; otherwise
calls the remote API (whose mocked result `remote` is the
`(className, ivars)` pair) and renders one row
`[name, formatted value, class-and-pointer annotation]` per ivar, in
mapping order. -/
def ivars (args : List String) (remote : String × List (String × Val)) : IvarsRun :=
  if args.length < 1 then
    { usagePrinted := true, remoteCalled := false, utf8Flag := false, table := none }
  else
    { usagePrinted := false, remoteCalled := true,
      utf8Flag := _should_print_as_utf8 args,
      table := some (remote.2.map (fun kv =>
        [Val.vStr kv.1,
         (format_class_and_value kv.2).1,
         Val.vStr (format_class_and_value kv.2).2])) }

/-- One row of the `methods` table for signature `entry` of class
`clazz`: `[entry, entry.split(" ")[0],
"<type> [<clazz> <entry.split(" ")[1]>]"]`. Python `split(" ")` always
yields at least one piece, so the `[0]` access cannot fail, but the
`[1]` access raises `IndexError` when the signature contains no space;
that failure is the `none` case. -/
def methodRow (clazz entry : String) : Option (List String) :=
  match pySplit ' ' entry with
  | t :: m :: _ => some [entry, t, t ++ " [" ++ clazz ++ " " ++ m ++ "]"]
  | _ => none

/-- The rows of the `methods` table, built left to right; the first
signature whose row raises makes the whole rendering raise. -/
def methodRows (clazz : String) : List String → Option (List (List String))
  | [] => some []
  | e :: es =>
    match methodRow clazz e, methodRows clazz es with
    | some r, some rs => some (r :: rs)
    | _, _ => none

/-- The signature list after the optional argument filter of `methods`:
with `--without-arguments` present, signatures containing a colon are
dropped (`filter(lambda x: ':' not in x, ...)`). -/
def methodsSigs (args : List String) (sigs : List String) : List String :=
  if _should_ignore_methods_with_arguments args then
    sigs.filter (fun x => !(pyInStr ':' x))
  else sigs

/-- Observable behaviour of one `methods` call. -/
structure MethodsRun where
  usagePrinted : Bool
  remoteCalled : Bool
  table : Option (List (List String))
  fault : Option PyError
deriving DecidableEq, Repr

/-- The `methods` handler: usage message on missing argument; otherwise
calls the remote API (mocked result `remote` is the
`(className, signatures)` pair), applies the argument filter, and
renders the rows; an `IndexError` while rendering leaves no table. -/
def methods (args : List String) (remote : String × List String) : MethodsRun :=
  if args.length < 1 then
    { usagePrinted := true, remoteCalled := false, table := none, fault := none }
  else
    match methodRows remote.1 (methodsSigs args remote.2) with
    | some rows =>
      { usagePrinted := false, remoteCalled := true, table := some rows, fault := none }
    | none =>
      { usagePrinted := false, remoteCalled := true, table := none,
        fault := some PyError.indexError }

/-- Observable behaviour of one `execute` call. `printedResult` is the
pretty-printed remote result, when the call was made. -/
structure ExecuteRun where
  usagePrinted : Bool
  warned : Bool
  remoteCalled : Bool
  printedResult : Option Val
  fault : Option PyError
deriving DecidableEq, Repr

/-- The `execute` handler: usage message on empty arguments; then
`args[0]` is read (safe, the list is non-empty) and `args[1]` is read,
raising `IndexError` when absent — before any remote call; a selector
containing a colon is refused with a warning and no remote call;
otherwise the remote API is called (mocked result `remote`) and its
result printed. -/
def execute (args : List String) (remote : Val) : ExecuteRun :=
  if args.length < 1 then
    { usagePrinted := true, warned := false, remoteCalled := false,
      printedResult := none, fault := none }
  else
    match args.get? 1 with
    | none =>
      { usagePrinted := false, warned := false, remoteCalled := false,
        printedResult := none, fault := some PyError.indexError }
    | some method =>
      if pyInStr ':' method then
        { usagePrinted := false, warned := true, remoteCalled := false,
          printedResult := none, fault := none }
      else
        { usagePrinted := false, warned := false, remoteCalled := true,
          printedResult := some remote, fault := none }

/-- Observable behaviour of one `evaluate` call. `promptOpened` records
whether the interactive multi-line editor was opened; `finalArgs` is the
argument list after the handler ran (the source mutates it in place via
`args.remove('--inline')`); `pointer` and `script` are the two values
passed to the remote call. -/
structure EvaluateRun where
  usagePrinted : Bool
  promptOpened : Bool
  remoteCalled : Bool
  pointer : String
  script : String
  finalArgs : List String
deriving DecidableEq, Repr

/-- The `evaluate` handler: usage message on empty arguments; the
pointer is read from `args[0]` first; with `--inline` present the flag's
first occurrence is removed in place and the script is
`''.join(args[1:])` of the mutated list; otherwise the interactive
editor supplies the script (mocked by `promptInput`, stripped). -/
def evaluate (args : List String) (promptInput : String) : EvaluateRun :=
  if args.length < 1 then
    { usagePrinted := true, promptOpened := false, remoteCalled := false,
      pointer := "", script := "", finalArgs := args }
  else
    let target_pointer := args.headD ""
    if _should_interpret_inline_js args then
      let args2 := args.erase "--inline"
      { usagePrinted := false, promptOpened := false, remoteCalled := true,
        pointer := target_pointer, script := String.join (args2.drop 1),
        finalArgs := args2 }
    else
      { usagePrinted := false, promptOpened := true, remoteCalled := true,
        pointer := target_pointer, script := promptInput.trim,
        finalArgs := args }

/-- C9: each of the four flag predicates is a pure function of the token
list that returns true exactly when its flag literal occurs in the list,
at any position; in particular it returns false on every list not
containing the literal, including the empty list. -/
theorem flag_predicates_membership (args : List String) :
    (_should_ignore_methods_with_arguments args = true ↔ "--without-arguments" ∈ args) ∧
    (_should_print_as_utf8 args = true ↔ "--to-utf8" ∈ args) ∧
    (_should_return_as_string args = true ↔ "--return-string" ∈ args) ∧
    (_should_interpret_inline_js args = true ↔ "--inline" ∈ args) := by
  refine ⟨?_, ?_, ?_, ?_⟩ <;>
  · simp only [_should_ignore_methods_with_arguments, _should_print_as_utf8,
      _should_return_as_string, _should_interpret_inline_js,
      Bool.and_eq_true, decide_eq_true_eq, List.contains, List.elem_iff,
      and_iff_right_iff_imp]
    intro h
    exact List.length_pos.mpr (List.ne_nil_of_mem h)

/-- C8: every handler called with an empty argument list prints the
usage message, makes no remote call, opens no prompt, renders nothing,
raises nothing, and returns normally — whatever the remote would have
answered. -/
theorem handlers_usage_on_empty_args (r1 : List HeapObject)
    (r2 : String × List (String × Val)) (r3 : String × List String)
    (r4 : Val) (p : String) :
    instances [] r1 = { usagePrinted := true, remoteCalled := false, table := none } ∧
    ivars [] r2 = { usagePrinted := true, remoteCalled := false,
                    utf8Flag := false, table := none } ∧
    methods [] r3 = { usagePrinted := true, remoteCalled := false,
                      table := none, fault := none } ∧
    execute [] r4 = { usagePrinted := true, warned := false, remoteCalled := false,
                      printedResult := none, fault := none } ∧
    evaluate [] p = { usagePrinted := true, promptOpened := false, remoteCalled := false,
                      pointer := "", script := "", finalArgs := [] } :=
  ⟨rfl, rfl, rfl, rfl, rfl⟩

/-- C4: whenever the argument list has a second element and that
selector contains a colon, `execute` emits only the
unsupported-operation warning: no usage message, no remote call, no
printed result, no fault, and a normal return. -/
theorem execute_refuses_colon_selector (args : List String) (m : String) (remote : Val)
    (h1 : args.get? 1 = some m) (h2 : pyInStr ':' m = true) :
    execute args remote =
      { usagePrinted := false, warned := true, remoteCalled := false,
        printedResult := none, fault := none } := by
  have hlt : 1 < args.length := by
    rcases List.get?_eq_some.mp h1 with ⟨h, _⟩
    exact h
  have h0 : ¬ args.length < 1 := by omega
  rw [List.get?_eq_getElem?] at h1
  simp [execute, h0, h1, h2]

/-- Witness for C4 at `args = ["0x600001130660", "baz:"]`. -/
theorem execute_refuses_colon_selector_witness :
    (["0x600001130660", "baz:"].get? 1 = some "baz:") ∧
    (pyInStr ':' "baz:" = true) ∧
    execute ["0x600001130660", "baz:"] Val.vNull =
      { usagePrinted := false, warned := true, remoteCalled := false,
        printedResult := none, fault := none } :=
  ⟨by decide, by decide,
   execute_refuses_colon_selector ["0x600001130660", "baz:"] "baz:" Val.vNull
     (by decide) (by decide)⟩

/-- C5: on an argument list of length exactly one, `execute` raises an
index fault reading the missing selector, with no warning, no usage
message, no printed result, and in particular no remote call. -/
theorem execute_missing_selector_faults (args : List String) (remote : Val)
    (h : args.length = 1) :
    execute args remote =
      { usagePrinted := false, warned := false, remoteCalled := false,
        printedResult := none, fault := some PyError.indexError } := by
  have h0 : ¬ args.length < 1 := by omega
  have h1 : args.get? 1 = none := List.get?_eq_none.mpr (by omega)
  rw [List.get?_eq_getElem?] at h1
  simp [execute, h0, h1]

/-- Witness for C5 at `args = ["0x600001130660"]`. -/
theorem execute_missing_selector_faults_witness :
    (["0x600001130660"] : List String).length = 1 ∧
    execute ["0x600001130660"] Val.vNull =
      { usagePrinted := false, warned := false, remoteCalled := false,
        printedResult := none, fault := some PyError.indexError } :=
  ⟨by decide, execute_missing_selector_faults ["0x600001130660"] Val.vNull (by decide)⟩

/-- C7: with a class-name argument present, `instances` calls the remote
API; an empty result list produces no table (and no fault, the handler
just returns); a non-empty result list is rendered as exactly one row
per entry, the columns being, in order: handle, kind, class name,
superclass, number of instance variables, number of methods. -/
theorem instances_row_rendering (args : List String) (remote : List HeapObject)
    (h : args ≠ []) :
    (instances args remote).usagePrinted = false ∧
    (instances args remote).remoteCalled = true ∧
    ((instances args remote).table = none ↔ remote = []) ∧
    (∀ t, (instances args remote).table = some t →
      t.length = remote.length ∧
      ∀ (i : Nat) (hi : i < remote.length),
        t.get? i = some
          [Val.vStr (remote.get ⟨i, hi⟩).handle,
           Val.vStr (remote.get ⟨i, hi⟩).kind,
           Val.vStr (remote.get ⟨i, hi⟩).className,
           Val.vStr (remote.get ⟨i, hi⟩).superClass,
           Val.vInt (remote.get ⟨i, hi⟩).ivars.length,
           Val.vInt (remote.get ⟨i, hi⟩).methods.length]) := by
  have h0 : ¬ args.length < 1 := by
    have := List.length_pos.mpr h
    omega
  by_cases hr : remote = []
  · subst hr
    simp [instances, h0]
  · have hlen : ¬ remote.length ≤ 0 := by
      have := List.length_pos.mpr hr
      omega
    refine ⟨by simp [instances, h0, hlen], by simp [instances, h0, hlen], ?_, ?_⟩
    · simp [instances, h0, hlen, hr]
    · intro t ht
      simp only [instances, if_neg h0, if_neg hlen, Option.some.injEq] at ht
      subst ht
      refine ⟨by simp, ?_⟩
      intro i hi
      rw [List.get?_map, List.get?_eq_get hi]
      rfl

/-- A concrete heap object summary used by the C7 witness. -/
def sampleHeapObject : HeapObject :=
  { className := "NSString", handle := "0x1", ivars := [("_x", Val.vInt 0)],
    kind := "instance", methods := ["- length"], superClass := "NSObject" }

/-- Witness for C7 at one concrete heap object. -/
theorem instances_row_rendering_witness :
    ((["NSString"] : List String) ≠ []) ∧
    ((instances ["NSString"] [sampleHeapObject]).usagePrinted = false ∧
     (instances ["NSString"] [sampleHeapObject]).remoteCalled = true ∧
     ((instances ["NSString"] [sampleHeapObject]).table = none ↔
       ([sampleHeapObject] : List HeapObject) = []) ∧
     (∀ t, (instances ["NSString"] [sampleHeapObject]).table = some t →
       t.length = ([sampleHeapObject] : List HeapObject).length ∧
       ∀ (i : Nat) (hi : i < ([sampleHeapObject] : List HeapObject).length),
         t.get? i = some
           [Val.vStr (([sampleHeapObject] : List HeapObject).get ⟨i, hi⟩).handle,
            Val.vStr (([sampleHeapObject] : List HeapObject).get ⟨i, hi⟩).kind,
            Val.vStr (([sampleHeapObject] : List HeapObject).get ⟨i, hi⟩).className,
            Val.vStr (([sampleHeapObject] : List HeapObject).get ⟨i, hi⟩).superClass,
            Val.vInt (([sampleHeapObject] : List HeapObject).get ⟨i, hi⟩).ivars.length,
            Val.vInt (([sampleHeapObject] : List HeapObject).get ⟨i, hi⟩).methods.length])) :=
  ⟨by decide, instances_row_rendering ["NSString"] [sampleHeapObject] (by decide)⟩

/-- C3: with `--without-arguments` among the tokens, the signature list
that `methods` goes on to render is a sublist of the remote one (order
kept) in which exactly the signatures containing a colon are gone (the
occurrence count of a colon-free signature is unchanged, that of a
colon-bearing one is zero); on the remote result
`("Foo", ["- bar", "- baz:qux:"])` only `"- bar"` survives, with
synthesized full form `"- [Foo bar]"`. -/
theorem methods_colon_filter (args : List String)
    (sigs : List String) (h : "--without-arguments" ∈ args) :
    (methodsSigs args sigs).Sublist sigs ∧
    (∀ s : String, (methodsSigs args sigs).count s =
        if pyInStr ':' s = true then 0 else sigs.count s) ∧
    methods ["0x600001130660", "--without-arguments"] ("Foo", ["- bar", "- baz:qux:"]) =
      { usagePrinted := false, remoteCalled := true,
        table := some [["- bar", "-", "- [Foo bar]"]], fault := none } := by
  have h1 : 0 < args.length := List.length_pos.mpr (List.ne_nil_of_mem h)
  have hp : _should_ignore_methods_with_arguments args = true := by
    simp [_should_ignore_methods_with_arguments, List.contains, List.elem_iff, h, h1]
  refine ⟨?_, ?_, ?_⟩
  · simp only [methodsSigs, hp, if_true]
    exact List.filter_sublist sigs
  · intro s
    simp only [methodsSigs, hp, if_true]
    by_cases hc : pyInStr ':' s = true
    · simp only [hc, if_true]
      refine List.count_eq_zero.mpr ?_
      intro hmem
      have := (List.mem_filter.mp hmem).2
      simp [hc] at this
    · simp only [hc, if_false]
      exact List.count_filter (by simp [hc])
  · decide

/-- Witness for C3 at `args = ["0x600001130660", "--without-arguments"]`
and the remote result of the claim. -/
theorem methods_colon_filter_witness :
    ("--without-arguments" ∈ (["0x600001130660", "--without-arguments"] : List String)) ∧
    ((methodsSigs ["0x600001130660", "--without-arguments"]
        ["- bar", "- baz:qux:"]).Sublist ["- bar", "- baz:qux:"] ∧
     (∀ s : String, (methodsSigs ["0x600001130660", "--without-arguments"]
          ["- bar", "- baz:qux:"]).count s =
        if pyInStr ':' s = true then 0
        else (["- bar", "- baz:qux:"] : List String).count s) ∧
     methods ["0x600001130660", "--without-arguments"] ("Foo", ["- bar", "- baz:qux:"]) =
       { usagePrinted := false, remoteCalled := true,
         table := some [["- bar", "-", "- [Foo bar]"]], fault := none }) :=
  ⟨by decide,
   methods_colon_filter ["0x600001130660", "--without-arguments"]
     ["- bar", "- baz:qux:"] (by decide)⟩

/-- A signature's row fails exactly when the signature splits into fewer
than two space-delimited pieces, i.e. contains no space. -/
theorem methodRow_eq_none_iff (clazz entry : String) :
    methodRow clazz entry = none ↔ (pySplit ' ' entry).length < 2 := by
  unfold methodRow
  cases hs : pySplit ' ' entry with
  | nil => simp
  | cons t rest =>
    cases rest with
    | nil => simp
    | cons m rest2 => simp

/-- Rendering the whole table fails exactly when some signature's row
fails. -/
theorem methodRows_eq_none_iff (clazz : String) (l : List String) :
    methodRows clazz l = none ↔ ∃ e ∈ l, methodRow clazz e = none := by
  induction l with
  | nil => simp [methodRows]
  | cons e es ih =>
    simp only [methodRows]
    cases hr : methodRow clazz e with
    | none =>
      simp only [List.mem_cons]
      constructor
      · intro _
        exact ⟨e, Or.inl rfl, hr⟩
      · intro _
        trivial
    | some r =>
      cases hs : methodRows clazz es with
      | none =>
        simp only [List.mem_cons]
        constructor
        · intro _
          rcases ih.mp hs with ⟨e2, he2, hrow⟩
          exact ⟨e2, Or.inr he2, hrow⟩
        · intro _
          trivial
      | some rs =>
        simp only [List.mem_cons, reduceCtorEq, false_iff, not_exists]
        intro e2 he2
        rcases he2 with ⟨he2 | he2, hrow⟩
        · rw [he2] at hrow
          rw [hrow] at hr
          exact Option.noConfusion hr
        · exact absurd ((ih.mpr ⟨e2, he2, hrow⟩).symm.trans hs) (by simp)

/-- C2 (amended): for every signature that splits into at least two
space-delimited pieces the handler derives the Type column as the first
piece and the Full column as `"<type> [<clazz> <second piece>]"` —
completing normally even when there are more than two pieces, merely
mis-rendering the Full column; but a signature containing no space makes
the row synthesis raise an index fault, so the handler does not complete
normally on such input: it renders no table and faults. -/
theorem methods_signature_tokens (args : List String) (clazz : String)
    (sigs : List String) (h : args ≠ []) :
    (∀ entry t m rest, pySplit ' ' entry = t :: m :: rest →
        methodRow clazz entry = some [entry, t, t ++ " [" ++ clazz ++ " " ++ m ++ "]"]) ∧
    (∀ entry, (pySplit ' ' entry).length < 2 → methodRow clazz entry = none) ∧
    ((∀ s ∈ methodsSigs args sigs, ¬ (pySplit ' ' s).length < 2) →
        (methods args (clazz, sigs)).fault = none ∧
        (methods args (clazz, sigs)).table ≠ none) ∧
    ((∃ s ∈ methodsSigs args sigs, (pySplit ' ' s).length < 2) →
        (methods args (clazz, sigs)).fault = some PyError.indexError ∧
        (methods args (clazz, sigs)).table = none) := by
  have h0 : ¬ args.length < 1 := by
    have := List.length_pos.mpr h
    omega
  refine ⟨?_, ?_, ?_, ?_⟩
  · intro entry t m rest hsp
    simp [methodRow, hsp]
  · intro entry hlen
    exact (methodRow_eq_none_iff clazz entry).mpr hlen
  · intro hall
    have hne : methodRows clazz (methodsSigs args sigs) ≠ none := by
      rw [Ne, methodRows_eq_none_iff]
      rintro ⟨s, hs, hrow⟩
      exact hall s hs ((methodRow_eq_none_iff clazz s).mp hrow)
    rcases Option.ne_none_iff_exists'.mp hne with ⟨rows, hrows⟩
    simp [methods, h0, hrows]
  · rintro ⟨s, hs, hlen⟩
    have hnone : methodRows clazz (methodsSigs args sigs) = none :=
      (methodRows_eq_none_iff clazz _).mpr
        ⟨s, hs, (methodRow_eq_none_iff clazz s).mpr hlen⟩
    simp [methods, h0, hnone]

/-- Counterexample to C2 as stated: on the remote result
`("Foo", ["bar"])` — one signature with no space, hence not two
space-delimited tokens — the handler does not complete normally: it
raises an index fault and renders nothing. -/
theorem methods_nospace_signature_cex :
    (methods ["0x600001130660"] ("Foo", ["bar"])).fault = some PyError.indexError ∧
    (methods ["0x600001130660"] ("Foo", ["bar"])).table = none := by
  constructor <;> rfl

/-- Witness for C2 at `args = ["0x600001130660"]`, class `"Foo"` and
signatures `["- bar baz", "nospace"]`. -/
theorem methods_signature_tokens_witness :
    ((["0x600001130660"] : List String) ≠ []) ∧
    ((∀ entry t m rest, pySplit ' ' entry = t :: m :: rest →
        methodRow "Foo" entry = some [entry, t, t ++ " [" ++ "Foo" ++ " " ++ m ++ "]"]) ∧
     (∀ entry, (pySplit ' ' entry).length < 2 → methodRow "Foo" entry = none) ∧
     ((∀ s ∈ methodsSigs ["0x600001130660"] ["- bar baz", "nospace"],
          ¬ (pySplit ' ' s).length < 2) →
        (methods ["0x600001130660"] ("Foo", ["- bar baz", "nospace"])).fault = none ∧
        (methods ["0x600001130660"] ("Foo", ["- bar baz", "nospace"])).table ≠ none) ∧
     ((∃ s ∈ methodsSigs ["0x600001130660"] ["- bar baz", "nospace"],
          (pySplit ' ' s).length < 2) →
        (methods ["0x600001130660"] ("Foo", ["- bar baz", "nospace"])).fault =
          some PyError.indexError ∧
        (methods ["0x600001130660"] ("Foo", ["- bar baz", "nospace"])).table = none)) :=
  ⟨by decide,
   methods_signature_tokens ["0x600001130660"] "Foo" ["- bar baz", "nospace"] (by decide)⟩

/-- The reference descriptor of the C1 example. -/
def refDescriptorExample : List (String × Val) :=
  [("className", Val.vStr "Bar"), ("pointer", Val.vStr "0x1"), ("value", Val.vStr "x")]

/-- The `ivars` remote result of the C1 example: a scalar ivar and a
reference-descriptor ivar. -/
def ivarsExample : String × List (String × Val) :=
  ("Foo", [("a", Val.vInt 1), ("b", Val.vDict refDescriptorExample)])

/-- Counterexample to C1 as stated: on the example result the second
row's main column is not the bare string `x` — the handler passes
textual values through Python `repr`, which wraps them in quotes. -/
theorem ivars_rows_cex :
    (ivars ["0x600001130660"] ivarsExample).table ≠
      some [[Val.vStr "a", Val.vInt 1, Val.vStr ""],
            [Val.vStr "b", Val.vStr "x", Val.vStr "<Bar:0x1>"]] := by
  decide

/-- C1 (amended): a mapping value that is a dict with both a
`className` and a `pointer` key is rendered with side column
`<ClassName:pointer>` and its embedded `value` in the main column --
quoted via Python `repr` when textual, rendered directly otherwise,
and defaulting to the repr of the empty string when absent; every
other value (a non-dict, or a dict lacking one of the two keys) gets
an empty side column and is rendered directly, except strings, which
are also repr-quoted. On the example result the two rows are, in
order, `("a", 1, "")` and `("b", <repr of "x", i.e. quote-x-quote>,
"<Bar:0x1>")`. -/
theorem ivars_reference_rendering (d : List (String × Val)) (cn pt : String)
    (hcn : dictLookup d "className" = some (Val.vStr cn))
    (hpt : dictLookup d "pointer" = some (Val.vStr pt)) :
    (format_class_and_value (Val.vDict d)).2 = "<" ++ cn ++ ":" ++ pt ++ ">" ∧
    (∀ s, dictLookup d "value" = some (Val.vStr s) →
        (format_class_and_value (Val.vDict d)).1 = Val.vStr (pyRepr s)) ∧
    (∀ v, dictLookup d "value" = some v → (∀ s, v ≠ Val.vStr s) →
        (format_class_and_value (Val.vDict d)).1 = v) ∧
    (dictLookup d "value" = none →
        (format_class_and_value (Val.vDict d)).1 = Val.vStr (pyRepr "")) ∧
    (∀ v : Val,
        (∀ d2, v = Val.vDict d2 →
          dictLookup d2 "className" = none ∨ dictLookup d2 "pointer" = none) →
        (format_class_and_value v).2 = "" ∧
        (∀ s, v = Val.vStr s → (format_class_and_value v).1 = Val.vStr (pyRepr s)) ∧
        ((∀ s, v ≠ Val.vStr s) → (format_class_and_value v).1 = v)) ∧
    (ivars ["0x600001130660"] ivarsExample).table =
      some [[Val.vStr "a", Val.vInt 1, Val.vStr ""],
            [Val.vStr "b", Val.vStr (String.mk [squote, 'x', squote]),
             Val.vStr "<Bar:0x1>"]] := by
  refine ⟨?_, ?_, ?_, ?_, ?_, ?_⟩
  · simp [format_class_and_value, hcn, hpt, dictGet, pyStr]
  · intro s hv
    simp [format_class_and_value, hcn, hpt, dictGet, hv]
  · intro v hv hnots
    cases v with
    | vStr s => exact absurd rfl (hnots s)
    | vInt n => simp [format_class_and_value, hcn, hpt, dictGet, hv]
    | vBool b => simp [format_class_and_value, hcn, hpt, dictGet, hv]
    | vNull => simp [format_class_and_value, hcn, hpt, dictGet, hv]
    | vList xs => simp [format_class_and_value, hcn, hpt, dictGet, hv]
    | vDict d2 => simp [format_class_and_value, hcn, hpt, dictGet, hv]
  · intro hnone
    simp [format_class_and_value, hcn, hpt, dictGet, hnone]
  · intro v hnd
    refine ⟨?_, ?_, ?_⟩
    · cases v with
      | vStr s => rfl
      | vInt n => rfl
      | vBool b => rfl
      | vNull => rfl
      | vList xs => rfl
      | vDict d2 =>
        rcases hnd d2 rfl with hmiss | hmiss <;>
          simp [format_class_and_value, hmiss]
    · intro s hs
      subst hs
      rfl
    · intro hnots
      cases v with
      | vStr s => exact absurd rfl (hnots s)
      | vInt n => rfl
      | vBool b => rfl
      | vNull => rfl
      | vList xs => rfl
      | vDict d2 =>
        rcases hnd d2 rfl with hmiss | hmiss <;>
          simp [format_class_and_value, hmiss]
  · decide

/-- Witness for C1 (amended) at the example reference descriptor. -/
theorem ivars_reference_rendering_witness :
    (dictLookup refDescriptorExample "className" = some (Val.vStr "Bar")) ∧
    (dictLookup refDescriptorExample "pointer" = some (Val.vStr "0x1")) ∧
    ((format_class_and_value (Val.vDict refDescriptorExample)).2 =
        "<" ++ "Bar" ++ ":" ++ "0x1" ++ ">" ∧
     (∀ s, dictLookup refDescriptorExample "value" = some (Val.vStr s) →
        (format_class_and_value (Val.vDict refDescriptorExample)).1 =
          Val.vStr (pyRepr s)) ∧
     (∀ v, dictLookup refDescriptorExample "value" = some v →
        (∀ s, v ≠ Val.vStr s) →
        (format_class_and_value (Val.vDict refDescriptorExample)).1 = v) ∧
     (dictLookup refDescriptorExample "value" = none →
        (format_class_and_value (Val.vDict refDescriptorExample)).1 =
          Val.vStr (pyRepr "")) ∧
     (∀ v : Val,
        (∀ d2, v = Val.vDict d2 →
          dictLookup d2 "className" = none ∨ dictLookup d2 "pointer" = none) →
        (format_class_and_value v).2 = "" ∧
        (∀ s, v = Val.vStr s → (format_class_and_value v).1 = Val.vStr (pyRepr s)) ∧
        ((∀ s, v ≠ Val.vStr s) → (format_class_and_value v).1 = v)) ∧
     (ivars ["0x600001130660"] ivarsExample).table =
       some [[Val.vStr "a", Val.vInt 1, Val.vStr ""],
             [Val.vStr "b", Val.vStr (String.mk [squote, 'x', squote]),
              Val.vStr "<Bar:0x1>"]]) :=
  ⟨by decide, by decide,
   ivars_reference_rendering refDescriptorExample "Bar" "0x1" (by decide) (by decide)⟩

/-- Counterexample to C6 as stated: with `--inline` as the first
element, the arguments without the flag token (which is `args[0]` here)
are `["a", "b"]`, so the claim's script body would be `"ab"`; the code
produces `"b"`, because the pointer is taken from the mutated list's
head. -/
theorem evaluate_inline_first_flag_cex :
    (evaluate ["--inline", "a", "b"] "").script = "b" ∧
    ¬ (evaluate ["--inline", "a", "b"] "").script = "ab" := by
  constructor <;> decide

/-- C6 (amended): with `--inline` present and not in first position, the
script body is the no-separator concatenation of the arguments
excluding `args[0]` and excluding the first occurrence of the flag
token, the interactive editor is never opened, the remote call is made,
and the pointer is `args[0]`. -/
theorem evaluate_inline_script (args : List String) (p : String)
    (h : "--inline" ∈ args) (h0 : args.head? ≠ some "--inline") :
    (evaluate args p).promptOpened = false ∧
    (evaluate args p).remoteCalled = true ∧
    (evaluate args p).pointer = args.headD "" ∧
    (evaluate args p).script = String.join ((args.drop 1).erase "--inline") := by
  have hne : args ≠ [] := List.ne_nil_of_mem h
  have h0len : ¬ args.length < 1 := by
    have := List.length_pos.mpr hne
    omega
  have hflag : _should_interpret_inline_js args = true := by
    simp [_should_interpret_inline_js, List.contains, List.elem_iff, h,
      List.length_pos.mpr hne]
  obtain ⟨a, t, rfl⟩ : ∃ a t, args = a :: t := by
    cases args with
    | nil => exact absurd rfl hne
    | cons a t => exact ⟨a, t, rfl⟩
  have ha : a ≠ "--inline" := by
    intro he
    apply h0
    simp [he]
  have herase : (a :: t).erase "--inline" = a :: t.erase "--inline" := by
    rw [List.erase_cons_tail]
    simp [ha]
  refine ⟨?_, ?_, ?_, ?_⟩ <;> simp [evaluate, h0len, hflag, herase]

/-- Witness for C6 (amended) at
`args = ["0xABC", "--inline", "a", "b", "c"]`; the concatenation there
is `"abc"`. -/
theorem evaluate_inline_script_witness :
    ("--inline" ∈ (["0xABC", "--inline", "a", "b", "c"] : List String)) ∧
    ((["0xABC", "--inline", "a", "b", "c"] : List String).head? ≠ some "--inline") ∧
    ((evaluate ["0xABC", "--inline", "a", "b", "c"] "").promptOpened = false ∧
     (evaluate ["0xABC", "--inline", "a", "b", "c"] "").remoteCalled = true ∧
     (evaluate ["0xABC", "--inline", "a", "b", "c"] "").pointer =
       (["0xABC", "--inline", "a", "b", "c"] : List String).headD "" ∧
     (evaluate ["0xABC", "--inline", "a", "b", "c"] "").script =
       String.join (((["0xABC", "--inline", "a", "b", "c"] : List String).drop 1).erase
         "--inline")) ∧
    (evaluate ["0xABC", "--inline", "a", "b", "c"] "").script = "abc" :=
  ⟨by decide, by decide,
   evaluate_inline_script ["0xABC", "--inline", "a", "b", "c"] "" (by decide) (by decide),
   by decide⟩

/-- C10: in inline mode `evaluate` removes the first occurrence of the
`--inline` token from the argument list itself (observable here as
`finalArgs`), and the pointer handle was read from `args[0]` before the
removal; consequently, when `--inline` is the first element it is
itself used as the pointer handle, and the script excludes the element
that is at index 0 of the list after the removal. -/
theorem evaluate_inline_mutation (args : List String) (p : String)
    (h : "--inline" ∈ args) :
    (evaluate args p).finalArgs = args.erase "--inline" ∧
    (evaluate args p).pointer = args.headD "" ∧
    (args.head? = some "--inline" →
      (evaluate args p).pointer = "--inline" ∧
      (evaluate args p).script = String.join ((args.erase "--inline").drop 1)) := by
  have hne : args ≠ [] := List.ne_nil_of_mem h
  have h0len : ¬ args.length < 1 := by
    have := List.length_pos.mpr hne
    omega
  have hflag : _should_interpret_inline_js args = true := by
    simp [_should_interpret_inline_js, List.contains, List.elem_iff, h,
      List.length_pos.mpr hne]
  refine ⟨?_, ?_, ?_⟩
  · simp [evaluate, h0len, hflag]
  · simp [evaluate, h0len, hflag]
  · intro hh
    constructor
    · cases args with
      | nil => exact absurd rfl hne
      | cons a t =>
        have ha : a = "--inline" := by
          simpa using hh
        subst ha
        simp [evaluate, h0len, hflag]
    · simp [evaluate, h0len, hflag]

/-- Witness for C10 at `args = ["--inline", "0xA", "x"]`. -/
theorem evaluate_inline_mutation_witness :
    ("--inline" ∈ (["--inline", "0xA", "x"] : List String)) ∧
    ((evaluate ["--inline", "0xA", "x"] "").finalArgs =
       (["--inline", "0xA", "x"] : List String).erase "--inline" ∧
     (evaluate ["--inline", "0xA", "x"] "").pointer =
       (["--inline", "0xA", "x"] : List String).headD "" ∧
     ((["--inline", "0xA", "x"] : List String).head? = some "--inline" →
       (evaluate ["--inline", "0xA", "x"] "").pointer = "--inline" ∧
       (evaluate ["--inline", "0xA", "x"] "").script =
         String.join (((["--inline", "0xA", "x"] : List String).erase "--inline").drop 1))) :=
  ⟨by decide, evaluate_inline_mutation ["--inline", "0xA", "x"] "" (by decide)⟩
